import Mathlib

/-!
Shallow embedding of the zk-lending-protocol Anchor program
(`programs/zk-lending-protocol/src/lib.rs`).

Modeling conventions:
* `u64` values are `Nat` together with explicit `% 2^64` / bound checks where
  the Rust code performs checked or saturating arithmetic;
* `i64` values are `Int` with explicit 64-bit range checks for checked ops;
* `Pubkey` is an opaque identity, modeled as `Nat`;
* fallible instructions return `Except ZKError σ` for the updated accounts;
* the SPL `token::transfer` CPI moves tokens between escrow accounts that are
  outside the lending state verified here; it is modeled as succeeding.
-/

namespace ZkLending

/-- `2^64`, the modulus of Rust `u64`. -/
def U64 : Nat := 2 ^ 64

/-- Smallest `i64` value. -/
def I64MIN : Int := -(2 ^ 63)

/-- Largest `i64` value. -/
def I64MAX : Int := 2 ^ 63 - 1

/-- The integer fits in `i64`. -/
def inI64 (x : Int) : Prop := I64MIN ≤ x ∧ x ≤ I64MAX

instance (x : Int) : Decidable (inI64 x) :=
  inferInstanceAs (Decidable (_ ∧ _))

/-- Rust `u64::checked_add`. -/
def checked_add_u64 (a b : Nat) : Option Nat :=
  if a + b < U64 then some (a + b) else none

/-- Rust `u64::checked_sub`. -/
def checked_sub_u64 (a b : Nat) : Option Nat :=
  if b ≤ a then some (a - b) else none

/-- Rust `u64::checked_mul`. -/
def checked_mul_u64 (a b : Nat) : Option Nat :=
  if a * b < U64 then some (a * b) else none

/-- Rust `u64::checked_div`. -/
def checked_div_u64 (a b : Nat) : Option Nat :=
  if b = 0 then none else some (a / b)

/-- Rust `i64::checked_add`. -/
def checked_add_i64 (a b : Int) : Option Int :=
  if inI64 (a + b) then some (a + b) else none

/-- Rust `i64::checked_sub`. -/
def checked_sub_i64 (a b : Int) : Option Int :=
  if inI64 (a - b) then some (a - b) else none

/-- Rust `x as u64` applied to an `i64` value: reinterpretation modulo `2^64`. -/
def i64_as_u64 (x : Int) : Nat := (x % (U64 : Int)).toNat

/-- Solana account identity (opaque). -/
abbrev Pubkey := Nat

/-- `EncryptedAmount { value: u64 }` — placeholder for real ZK encryption. -/
structure EncryptedAmount where
  value : Nat
deriving DecidableEq

/-- `ProtocolState` account. -/
structure ProtocolState where
  total_collateral : Nat
  total_loans : Nat
  total_liquidity : Nat
  base_interest_rate : Nat
  utilization_rate : Nat
  min_collateral_lock_time : Int
deriving DecidableEq

/-- `LendingPool` account. -/
structure LendingPool where
  pool_authority : Pubkey
  total_liquidity : Nat
  base_interest_rate : Nat
  utilization_rate : Nat
  lender_rewards : Nat
deriving DecidableEq

/-- `CollateralPool` account. -/
structure CollateralPool where
  asset_mint : Pubkey
  total_collateral : Nat
deriving DecidableEq

/-- `InstitutionalLendingPool` account. -/
structure InstitutionalLendingPool where
  pool_owner : Pubkey
  total_liquidity : Nat
  fixed_interest_rate : Nat
  zk_whitelist : List Pubkey
deriving DecidableEq

/-- `ProtocolTreasury` account. -/
structure ProtocolTreasury where
  total_fees_collected : Nat
  governance_fund : Nat
deriving DecidableEq

/-- `BorrowerAccount` account. -/
structure BorrowerAccount where
  encrypted_collateral : EncryptedAmount
  encrypted_borrowed : EncryptedAmount
  borrow_timestamp : Int
deriving DecidableEq

/-- `Governance` account. -/
structure Governance where
  proposal_id : Nat
  proposal_type : Nat
  new_value : Nat
  votes : Int
deriving DecidableEq

/-- `DelegatedBorrower` account. -/
structure DelegatedBorrower where
  delegator : Pubkey
  delegate : Pubkey
  max_borrow_amount : Nat
deriving DecidableEq

/-- `ZKError` error codes of the program. -/
inductive ZKError where
  | InvalidProof
  | MathOverflow
  | InsufficientCollateral
  | InsufficientLiquidity
  | RepayExceedsBorrow
  | LiquidationNotAllowed
  | UnauthorizedVoter
  | InvalidProposal
  | CollateralSufficient
  | CollateralLockTimeNotMet
  | UnauthorizedBorrower
  | BorrowLimitExceeded
deriving DecidableEq

/-- `fn verify_zk_proof(_zk_proof: &Vec<u8>) -> bool { true }` (stub). -/
def verify_zk_proof (_zk_proof : List Nat) : Bool := true

/-- `fn update_encrypted_value`: `checked_add(amount).unwrap_or(current.value)`
when adding, `saturating_sub(amount)` when subtracting (`Nat` subtraction is
exactly saturating subtraction). -/
def update_encrypted_value (current : EncryptedAmount) (amount : Nat)
    (add : Bool) : EncryptedAmount :=
  if add then
    { value := (checked_add_u64 current.value amount).getD current.value }
  else
    { value := current.value - amount }

/-- `fn has_sufficient_collateral`: `encrypted_collateral.value >= amount`. -/
def has_sufficient_collateral (encrypted_collateral : EncryptedAmount)
    (amount : Nat) : Bool :=
  decide (encrypted_collateral.value ≥ amount)

/-- `fn reset_encryption`: the zero encrypted amount. -/
def reset_encryption : EncryptedAmount := { value := 0 }

/-- `fn extract_value_from_encryption`. -/
def extract_value_from_encryption (encrypted : EncryptedAmount) : Nat :=
  encrypted.value

/-- `fn calculate_utilization`: `0` when liquidity is zero, else
`((total_loans as u128 * 100 / total_liquidity as u128) as u8)`.  For `u64`
inputs the `u128` product cannot overflow, so the only truncation is the final
`as u8` cast, i.e. `% 256`. -/
def calculate_utilization (total_loans total_liquidity : Nat) : Nat :=
  if total_liquidity = 0 then 0
  else (total_loans * 100 / total_liquidity) % 256

/-- Anchor's `require!(cond, err)`: continue when `cond` holds, abort with
`err` otherwise. -/
def zk_require {α : Type} (cond : Bool) (err : ZKError)
    (k : Except ZKError α) : Except ZKError α :=
  if cond then k else Except.error err

/-- Rust's `opt.ok_or(err)?` pattern: continue with the value, abort with
`err` on `none`. -/
def lift_opt {α β : Type} (o : Option α) (err : ZKError)
    (k : α → Except ZKError β) : Except ZKError β :=
  match o with
  | none => Except.error err
  | some a => k a

/-- The flash-loan guard shared by the three borrow paths:
`if borrow_timestamp > 0 { require!(now - borrow_timestamp >= min_lock, ...) }`.
Returns `true` when the guard lets the instruction continue. -/
def flash_lock_ok (now ts min_lock : Int) : Bool :=
  if ts > 0 then decide (now - ts ≥ min_lock) else true

/-- `stake_collateral(amount, zk_proof)`: verify the proof, transfer tokens
into the pool escrow (external CPI), add `amount` to the borrower's
encrypted collateral and (checked) to the pool total. -/
def stake_collateral (ba : BorrowerAccount) (cp : CollateralPool)
    (amount : Nat) (zk_proof : List Nat) :
    Except ZKError (BorrowerAccount × CollateralPool) :=
  zk_require (verify_zk_proof zk_proof) ZKError.InvalidProof (
  let ba1 := { ba with
    encrypted_collateral :=
      update_encrypted_value ba.encrypted_collateral amount true }
  lift_opt (checked_add_u64 cp.total_collateral amount) ZKError.MathOverflow
    (fun total => Except.ok (ba1, { cp with total_collateral := total })))

/-- `borrow(amount, zk_proof)`: proof check, flash-loan guard, timestamp
update, collateral sufficiency, 1% fee, transfer (external CPI), treasury
fee accrual, debt increase by the full principal, ledger update. -/
def borrow (now : Int) (ba : BorrowerAccount) (ps : ProtocolState)
    (tr : ProtocolTreasury) (amount : Nat) (zk_proof : List Nat) :
    Except ZKError (BorrowerAccount × ProtocolState × ProtocolTreasury) :=
  zk_require (verify_zk_proof zk_proof) ZKError.InvalidProof (
  zk_require (flash_lock_ok now ba.borrow_timestamp
      ps.min_collateral_lock_time) ZKError.CollateralLockTimeNotMet (
  let ba1 := { ba with borrow_timestamp := now }
  zk_require (has_sufficient_collateral ba1.encrypted_collateral amount)
      ZKError.InsufficientCollateral (
  lift_opt (checked_div_u64 amount 100) ZKError.MathOverflow (fun fee =>
  lift_opt (checked_sub_u64 amount fee) ZKError.MathOverflow (fun _net =>
  lift_opt (checked_add_u64 tr.total_fees_collected fee) ZKError.MathOverflow
    (fun fees =>
  let tr1 := { tr with total_fees_collected := fees }
  let ba2 := { ba1 with
    encrypted_borrowed :=
      update_encrypted_value ba1.encrypted_borrowed amount true }
  lift_opt (checked_add_u64 ps.total_loans amount) ZKError.MathOverflow
    (fun loans =>
  lift_opt (checked_sub_u64 ps.total_liquidity amount) ZKError.MathOverflow
    (fun liq =>
  Except.ok (ba2,
    { ps with
        total_loans := loans
        total_liquidity := liq
        utilization_rate := calculate_utilization loans liq },
    tr1)))))))))

/-- `institutional_borrow(amount, zk_proof)`: like `borrow`, but the signer
must be in the institutional pool's whitelist. -/
def institutional_borrow (now : Int) (borrower : Pubkey)
    (ba : BorrowerAccount) (ps : ProtocolState) (tr : ProtocolTreasury)
    (pool : InstitutionalLendingPool) (amount : Nat) (zk_proof : List Nat) :
    Except ZKError (BorrowerAccount × ProtocolState × ProtocolTreasury) :=
  zk_require (verify_zk_proof zk_proof) ZKError.InvalidProof (
  zk_require (pool.zk_whitelist.contains borrower)
      ZKError.UnauthorizedBorrower (
  zk_require (flash_lock_ok now ba.borrow_timestamp
      ps.min_collateral_lock_time) ZKError.CollateralLockTimeNotMet (
  let ba1 := { ba with borrow_timestamp := now }
  zk_require (has_sufficient_collateral ba1.encrypted_collateral amount)
      ZKError.InsufficientCollateral (
  lift_opt (checked_div_u64 amount 100) ZKError.MathOverflow (fun fee =>
  lift_opt (checked_sub_u64 amount fee) ZKError.MathOverflow (fun _net =>
  lift_opt (checked_add_u64 tr.total_fees_collected fee) ZKError.MathOverflow
    (fun fees =>
  let tr1 := { tr with total_fees_collected := fees }
  let ba2 := { ba1 with
    encrypted_borrowed :=
      update_encrypted_value ba1.encrypted_borrowed amount true }
  lift_opt (checked_add_u64 ps.total_loans amount) ZKError.MathOverflow
    (fun loans =>
  lift_opt (checked_sub_u64 ps.total_liquidity amount) ZKError.MathOverflow
    (fun liq =>
  Except.ok (ba2,
    { ps with
        total_loans := loans
        total_liquidity := liq
        utilization_rate := calculate_utilization loans liq },
    tr1))))))))))

/-- `delegated_borrow(amount, zk_proof)`: the `DelegatedBorrower` record must
name the signer as delegate, `amount` must not exceed the credit ceiling;
then the shared borrow algorithm runs. -/
def delegated_borrow (now : Int) (borrower : Pubkey)
    (delegated : DelegatedBorrower) (ba : BorrowerAccount)
    (ps : ProtocolState) (tr : ProtocolTreasury) (amount : Nat)
    (zk_proof : List Nat) :
    Except ZKError (BorrowerAccount × ProtocolState × ProtocolTreasury) :=
  zk_require (verify_zk_proof zk_proof) ZKError.InvalidProof (
  zk_require (decide (delegated.delegate = borrower))
      ZKError.UnauthorizedBorrower (
  zk_require (decide (amount ≤ delegated.max_borrow_amount))
      ZKError.BorrowLimitExceeded (
  zk_require (flash_lock_ok now ba.borrow_timestamp
      ps.min_collateral_lock_time) ZKError.CollateralLockTimeNotMet (
  let ba1 := { ba with borrow_timestamp := now }
  zk_require (has_sufficient_collateral ba1.encrypted_collateral amount)
      ZKError.InsufficientCollateral (
  lift_opt (checked_div_u64 amount 100) ZKError.MathOverflow (fun fee =>
  lift_opt (checked_sub_u64 amount fee) ZKError.MathOverflow (fun _net =>
  lift_opt (checked_add_u64 tr.total_fees_collected fee) ZKError.MathOverflow
    (fun fees =>
  let tr1 := { tr with total_fees_collected := fees }
  let ba2 := { ba1 with
    encrypted_borrowed :=
      update_encrypted_value ba1.encrypted_borrowed amount true }
  lift_opt (checked_add_u64 ps.total_loans amount) ZKError.MathOverflow
    (fun loans =>
  lift_opt (checked_sub_u64 ps.total_liquidity amount) ZKError.MathOverflow
    (fun liq =>
  Except.ok (ba2,
    { ps with
        total_loans := loans
        total_liquidity := liq
        utilization_rate := calculate_utilization loans liq },
    tr1)))))))))))

/-- `let time_elapsed = now.checked_sub(borrow_timestamp).unwrap_or(0);` —
the fallback `0` only fires when the `i64` subtraction itself overflows. -/
def repay_time_elapsed (now ts : Int) : Int :=
  (checked_sub_i64 now ts).getD 0

/-- The interest chain of `repay`:
`principal.checked_mul(rate as u64).and_then(|v| v.checked_mul(time_elapsed as u64)).and_then(|v| v.checked_div(31_536_000 * 100))`. -/
def repay_interest_due (principal rate : Nat) (time_elapsed : Int) :
    Option Nat :=
  (checked_mul_u64 principal rate).bind (fun v =>
  (checked_mul_u64 v (i64_as_u64 time_elapsed)).bind (fun v =>
  checked_div_u64 v (31536000 * 100)))

/-- `total_due = principal.checked_add(interest_due)` in `repay`. -/
def repay_total_due (now : Int) (ba : BorrowerAccount) (ps : ProtocolState) :
    Option Nat :=
  (repay_interest_due ba.encrypted_borrowed.value ps.base_interest_rate
      (repay_time_elapsed now ba.borrow_timestamp)).bind
    (fun interest => checked_add_u64 ba.encrypted_borrowed.value interest)

/-- `repay(amount)`: interest accrual, full-repayment check, transfer
(external CPI), 1% lender reward, debt and timestamp reset, ledger update. -/
def repay (now : Int) (ba : BorrowerAccount) (ps : ProtocolState)
    (lp : LendingPool) (amount : Nat) :
    Except ZKError (BorrowerAccount × ProtocolState × LendingPool) :=
  let principal := ba.encrypted_borrowed.value
  lift_opt (repay_total_due now ba ps) ZKError.MathOverflow (fun total_due =>
  zk_require (decide (amount ≥ total_due)) ZKError.RepayExceedsBorrow (
  lift_opt (checked_div_u64 amount 100) ZKError.MathOverflow (fun reward =>
  lift_opt (checked_add_u64 lp.lender_rewards reward) ZKError.MathOverflow
    (fun rewards =>
  let lp1 := { lp with lender_rewards := rewards }
  let ba1 := { ba with
    encrypted_borrowed := reset_encryption
    borrow_timestamp := 0 }
  lift_opt (checked_sub_u64 ps.total_loans principal) ZKError.MathOverflow
    (fun loans =>
  lift_opt (checked_add_u64 ps.total_liquidity amount) ZKError.MathOverflow
    (fun liq =>
  Except.ok (ba1,
    { ps with
        total_loans := loans
        total_liquidity := liq
        utilization_rate := calculate_utilization loans liq },
    lp1)))))))

/-- `liquidate(zk_proof)`: proof check, then
`require!(!has_sufficient_collateral(collateral, 0), LiquidationNotAllowed)`,
then seize `current_collateral / 2` from borrower and pool. -/
def liquidate (ba : BorrowerAccount) (cp : CollateralPool)
    (zk_proof : List Nat) :
    Except ZKError (BorrowerAccount × CollateralPool) :=
  zk_require (verify_zk_proof zk_proof) ZKError.InvalidProof (
  zk_require (!(has_sufficient_collateral ba.encrypted_collateral 0))
      ZKError.LiquidationNotAllowed (
  let current_collateral :=
    extract_value_from_encryption ba.encrypted_collateral
  let liquidate_amount := current_collateral / 2
  let ba1 := { ba with
    encrypted_collateral :=
      update_encrypted_value ba.encrypted_collateral liquidate_amount false }
  lift_opt (checked_sub_u64 cp.total_collateral liquidate_amount)
      ZKError.MathOverflow (fun total =>
  Except.ok (ba1, { cp with total_collateral := total }))))

/-- `propose_change(proposal_type, new_value)`: checked increment of the
proposal id, overwrite type/value, reset the tally. -/
def propose_change (gov : Governance) (proposal_type new_value : Nat) :
    Except ZKError Governance :=
  lift_opt (checked_add_u64 gov.proposal_id 1) ZKError.MathOverflow
    (fun pid =>
  Except.ok { gov with
    proposal_id := pid
    proposal_type := proposal_type
    new_value := new_value
    votes := 0 })

/-- `vote(proposal_id, vote)`: whitelist gate, proposal-id gate, then a
checked `i64` increment or decrement of the tally. -/
def vote (voter : Pubkey) (pool : InstitutionalLendingPool)
    (gov : Governance) (proposal_id : Nat) (v : Bool) :
    Except ZKError Governance :=
  zk_require (pool.zk_whitelist.contains voter) ZKError.UnauthorizedVoter (
  zk_require (decide (gov.proposal_id = proposal_id))
      ZKError.InvalidProposal (
  if v then
    lift_opt (checked_add_i64 gov.votes 1) ZKError.MathOverflow
      (fun n => Except.ok { gov with votes := n })
  else
    lift_opt (checked_sub_i64 gov.votes 1) ZKError.MathOverflow
      (fun n => Except.ok { gov with votes := n })))

/-- `rebalance_collateral(additional_collateral, zk_proof)`: proof check,
then add the delta to the borrower's encrypted collateral (no pool update). -/
def rebalance_collateral (ba : BorrowerAccount)
    (additional_collateral : Nat) (zk_proof : List Nat) :
    Except ZKError BorrowerAccount :=
  zk_require (verify_zk_proof zk_proof) ZKError.InvalidProof (
  Except.ok { ba with
    encrypted_collateral :=
      update_encrypted_value ba.encrypted_collateral additional_collateral
        true })

/-! ## Characterization lemmas for the control-flow combinators and the
checked arithmetic -/

theorem zk_require_error_iff {α : Type} (cond : Bool) (err : ZKError)
    (k : Except ZKError α) (e : ZKError) :
    zk_require cond err k = Except.error e ↔
      (cond = false ∧ err = e) ∨ (cond = true ∧ k = Except.error e) := by
  cases cond <;> simp [zk_require]

theorem zk_require_ok_iff {α : Type} (cond : Bool) (err : ZKError)
    (k : Except ZKError α) (b : α) :
    zk_require cond err k = Except.ok b ↔ cond = true ∧ k = Except.ok b := by
  cases cond <;> simp [zk_require]

theorem lift_opt_error_iff {α β : Type} (o : Option α) (err : ZKError)
    (k : α → Except ZKError β) (e : ZKError) :
    lift_opt o err k = Except.error e ↔
      (o = none ∧ err = e) ∨ ∃ a, o = some a ∧ k a = Except.error e := by
  cases o <;> simp [lift_opt]

theorem lift_opt_ok_iff {α β : Type} (o : Option α) (err : ZKError)
    (k : α → Except ZKError β) (b : β) :
    lift_opt o err k = Except.ok b ↔
      ∃ a, o = some a ∧ k a = Except.ok b := by
  cases o <;> simp [lift_opt]

theorem checked_add_u64_some_iff {a b c : Nat} :
    checked_add_u64 a b = some c ↔ c = a + b ∧ a + b < U64 := by
  unfold checked_add_u64
  split <;> simp_all
  omega

theorem checked_sub_u64_some_iff {a b c : Nat} :
    checked_sub_u64 a b = some c ↔ c = a - b ∧ b ≤ a := by
  unfold checked_sub_u64
  split <;> simp_all
  omega

theorem checked_mul_u64_some_iff {a b c : Nat} :
    checked_mul_u64 a b = some c ↔ c = a * b ∧ a * b < U64 := by
  unfold checked_mul_u64
  split <;> simp_all
  omega

theorem checked_div_u64_some_iff {a b c : Nat} :
    checked_div_u64 a b = some c ↔ c = a / b ∧ b ≠ 0 := by
  unfold checked_div_u64
  split <;> simp_all
  exact eq_comm

theorem checked_add_i64_some_iff {a b c : Int} :
    checked_add_i64 a b = some c ↔ c = a + b ∧ inI64 (a + b) := by
  unfold checked_add_i64
  split <;> simp_all
  omega

theorem checked_sub_i64_some_iff {a b c : Int} :
    checked_sub_i64 a b = some c ↔ c = a - b ∧ inI64 (a - b) := by
  unfold checked_sub_i64
  split <;> simp_all
  omega

/-- The flash-loan guard passes exactly when the position is not strictly
positive-aged or the elapsed time has reached the lock time. -/
theorem flash_lock_ok_iff (now ts min_lock : Int) :
    flash_lock_ok now ts min_lock = true ↔
      (ts > 0 → now - ts ≥ min_lock) := by
  unfold flash_lock_ok
  split <;> simp_all

/-! ## Claim theorems -/

/-- C1, counterexample: on a borrower whose encrypted collateral is exactly
`0`, `liquidate` does not succeed — it fails with `LiquidationNotAllowed`,
because `has_sufficient_collateral(collateral, 0)` is `0 ≥ 0 = true`. -/
theorem C1_counterexample :
    liquidate ⟨⟨0⟩, ⟨0⟩, 0⟩ ⟨0, 0⟩ [] =
      Except.error ZKError.LiquidationNotAllowed := by
  rfl

/-- C1 (amended): `liquidate` fails with `LiquidationNotAllowed` on every
borrower state, every collateral pool and every (vacuously verifying) proof:
the zero-amount sufficiency probe `value ≥ 0` always holds for an unsigned
value, so the liquidation gate never opens and nothing is ever seized. -/
theorem C1_liquidate_always_rejected
    (ba : BorrowerAccount) (cp : CollateralPool) (zk_proof : List Nat) :
    liquidate ba cp zk_proof = Except.error ZKError.LiquidationNotAllowed := by
  unfold liquidate zk_require
  simp [verify_zk_proof, has_sufficient_collateral]

/-- C2, counterexample: `calculate_utilization 1000 1` returns `160`,
not the exact unclamped ratio `⌊1000·100/1⌋ = 100000` — the `as u8` cast
truncates the quotient modulo 256. -/
theorem C2_counterexample :
    calculate_utilization 1000 1 = 160 ∧
    calculate_utilization 1000 1 ≠ 1000 * 100 / 1 := by
  constructor
  · rfl
  · decide

/-- C2 (amended): `calculate_utilization` returns `0` when liquidity is zero
and otherwise `⌊loans·100/liquidity⌋` truncated to `u8`, i.e. reduced
modulo 256; the result equals the exact floor-division ratio exactly when
that ratio is below 256 (in particular for every `loans ≤ liquidity`), and
is always below 256. -/
theorem C2_utilization_mod256 (total_loans total_liquidity : Nat) :
    (total_liquidity = 0 → calculate_utilization total_loans total_liquidity = 0) ∧
    (total_liquidity ≠ 0 →
      calculate_utilization total_loans total_liquidity =
        total_loans * 100 / total_liquidity % 256) ∧
    (total_liquidity ≠ 0 → total_loans * 100 / total_liquidity < 256 →
      calculate_utilization total_loans total_liquidity =
        total_loans * 100 / total_liquidity) ∧
    calculate_utilization total_loans total_liquidity < 256 := by
  unfold calculate_utilization
  refine ⟨fun h => by simp [h], fun h => by simp [h], fun h hlt => ?_, ?_⟩
  · simp only [if_neg h]
    exact Nat.mod_eq_of_lt hlt
  · split
    · exact Nat.zero_lt_succ _
    · exact Nat.mod_lt _ (by omega)

/-- C2 witness: at loans = 50, liquidity = 100 the ratio 50 fits in `u8` and
is returned exactly; the liquidity-zero branch returns 0. -/
theorem C2_witness :
    calculate_utilization 771 0 = 0 ∧
    calculate_utilization 50 100 = 50 * 100 / 100 ∧
    calculate_utilization 50 100 < 256 :=
  ⟨(C2_utilization_mod256 771 0).1 rfl,
   (C2_utilization_mod256 50 100).2.2.1 (by decide) (by decide),
   (C2_utilization_mod256 50 100).2.2.2⟩

/-- C4, counterexample: adding `1` to the maximal `u64` encrypted value does
not signal an arithmetic-overflow failure — `update_encrypted_value` is total
and silently returns the old value unchanged (`checked_add(...).unwrap_or(current.value)`),
which differs from the exact sum. -/
theorem C4_counterexample :
    update_encrypted_value ⟨U64 - 1⟩ 1 true = ⟨U64 - 1⟩ ∧
    (U64 - 1) + 1 ≠ U64 - 1 := by
  constructor
  · rfl
  · decide

/-- C4 (amended): with `add = false` the result is the saturating difference
`max (current.value − amount) 0`; with `add = true` it is the exact sum when
that sum fits in `u64`, and otherwise the *unchanged* current value — the
overflow is swallowed silently rather than signalled. -/
theorem C4_update_encrypted_value (current : EncryptedAmount) (amount : Nat) :
    ((update_encrypted_value current amount false).value : Int) =
      max ((current.value : Int) - (amount : Int)) 0 ∧
    (current.value + amount < U64 →
      (update_encrypted_value current amount true).value =
        current.value + amount) ∧
    (¬ current.value + amount < U64 →
      (update_encrypted_value current amount true).value = current.value) := by
  unfold update_encrypted_value checked_add_u64
  refine ⟨?_, fun h => by simp [h], fun h => by simp [h]⟩
  simp only [Bool.false_eq_true, if_false]
  omega

/-- C4 witness: concrete saturating subtraction (7 − 9 saturates to 0) and a
concrete in-range addition (7 + 9 = 16). -/
theorem C4_witness :
    ((update_encrypted_value ⟨7⟩ 9 false).value : Int) =
      max ((7 : Int) - (9 : Int)) 0 ∧
    (update_encrypted_value ⟨7⟩ 9 true).value = 7 + 9 :=
  ⟨(C4_update_encrypted_value ⟨7⟩ 9).1,
   (C4_update_encrypted_value ⟨7⟩ 9).2.1 (by decide)⟩

/-- C3, counterexample: the elapsed time is *not* clamped to `0` when
`borrow_timestamp = 0`: with `now = 31536000` (one year) and a principal of
100 at rate 5, the interest chain yields `some 5`, not `0`, and `repay` with
`amount = principal = 100` consequently fails with `RepayExceedsBorrow`
instead of succeeding with zero interest. -/
theorem C3_counterexample :
    repay_time_elapsed 31536000 0 = 31536000 ∧
    repay_interest_due 100 5 (repay_time_elapsed 31536000 0) = some 5 ∧
    repay 31536000 ⟨⟨50⟩, ⟨100⟩, 0⟩ ⟨0, 100, 900, 5, 10, 600⟩
        ⟨1, 0, 5, 0, 2⟩ 100 =
      Except.error ZKError.RepayExceedsBorrow := by
  refine ⟨by decide, by decide, ?_⟩
  rfl

/-- C3 (amended): in `repay`, the elapsed time fed into the interest formula
is `now − borrow_timestamp` whenever that difference fits in `i64` — in
particular it equals `now` (not `0`) when `borrow_timestamp = 0`, and it is
*negative* (not `0`) when `borrow_timestamp > now`; the negative value is
then reinterpreted modulo `2^64` by the `as u64` cast, becoming
`2^64 + (now − borrow_timestamp)`.  The fallback to `0` fires only when the
`i64` subtraction itself overflows. -/
theorem C3_elapsed_not_clamped (now ts : Int) :
    (inI64 (now - ts) → repay_time_elapsed now ts = now - ts) ∧
    (¬ inI64 (now - ts) → repay_time_elapsed now ts = 0) ∧
    (inI64 (now - ts) → now - ts < 0 →
      ((i64_as_u64 (repay_time_elapsed now ts) : Int) =
        2 ^ 64 + (now - ts))) := by
  unfold repay_time_elapsed checked_sub_i64
  refine ⟨fun h => by simp [h], fun h => by simp [h], fun h hneg => ?_⟩
  simp only [if_pos h, Option.getD_some]
  unfold i64_as_u64 U64
  unfold inI64 I64MIN I64MAX at h
  omega

/-- C3 witness: at `now = 0`, `borrow_timestamp = 1` the elapsed time is `−1`
(a future timestamp is not clamped to `0`), and its `u64` reinterpretation is
`2^64 − 1`. -/
theorem C3_witness :
    repay_time_elapsed 0 1 = 0 - 1 ∧
    ((i64_as_u64 (repay_time_elapsed 0 1) : Int) = 2 ^ 64 + (0 - 1)) :=
  ⟨(C3_elapsed_not_clamped 0 1).1 (by decide),
   (C3_elapsed_not_clamped 0 1).2.2 (by decide) (by decide)⟩

/-- C5: the proof verifier stub accepts every byte vector, so none of the
six proof-gated instructions (`stake_collateral`, `borrow`,
`institutional_borrow`, `delegated_borrow`, `liquidate`,
`rebalance_collateral`) can ever fail with `InvalidProof`. -/
theorem C5_no_invalid_proof :
    (∀ zk_proof : List Nat, verify_zk_proof zk_proof = true) ∧
    (∀ ba cp amount zk_proof,
      stake_collateral ba cp amount zk_proof ≠
        Except.error ZKError.InvalidProof) ∧
    (∀ now ba ps tr amount zk_proof,
      borrow now ba ps tr amount zk_proof ≠
        Except.error ZKError.InvalidProof) ∧
    (∀ now borrower ba ps tr pool amount zk_proof,
      institutional_borrow now borrower ba ps tr pool amount zk_proof ≠
        Except.error ZKError.InvalidProof) ∧
    (∀ now borrower delegated ba ps tr amount zk_proof,
      delegated_borrow now borrower delegated ba ps tr amount zk_proof ≠
        Except.error ZKError.InvalidProof) ∧
    (∀ ba cp zk_proof,
      liquidate ba cp zk_proof ≠ Except.error ZKError.InvalidProof) ∧
    (∀ ba delta zk_proof,
      rebalance_collateral ba delta zk_proof ≠
        Except.error ZKError.InvalidProof) := by
  refine ⟨fun _ => rfl, ?_, ?_, ?_, ?_, ?_, ?_⟩
  · intro ba cp amount zk_proof h
    simp [stake_collateral, zk_require_error_iff, lift_opt_error_iff,
      verify_zk_proof] at h
  · intro now ba ps tr amount zk_proof h
    simp [borrow, zk_require_error_iff, lift_opt_error_iff,
      verify_zk_proof] at h
  · intro now borrower ba ps tr pool amount zk_proof h
    simp [institutional_borrow, zk_require_error_iff, lift_opt_error_iff,
      verify_zk_proof] at h
  · intro now borrower delegated ba ps tr amount zk_proof h
    simp [delegated_borrow, zk_require_error_iff, lift_opt_error_iff,
      verify_zk_proof] at h
  · intro ba cp zk_proof h
    simp [liquidate, zk_require_error_iff, lift_opt_error_iff,
      verify_zk_proof] at h
  · intro ba delta zk_proof h
    simp [rebalance_collateral, zk_require_error_iff,
      verify_zk_proof] at h

/-- C5 witness: the verifier accepts a concrete proof, and `liquidate` on a
concrete state does not report `InvalidProof` (it rejects for the unrelated
liquidation-gate reason). -/
theorem C5_witness :
    verify_zk_proof [0, 255] = true ∧
    liquidate ⟨⟨3⟩, ⟨0⟩, 0⟩ ⟨0, 3⟩ [0, 255] ≠
      Except.error ZKError.InvalidProof :=
  ⟨C5_no_invalid_proof.1 [0, 255],
   C5_no_invalid_proof.2.2.2.2.2.1 ⟨⟨3⟩, ⟨0⟩, 0⟩ ⟨0, 3⟩ [0, 255]⟩

/-- C6: ledger conservation.  Every successful run of the three borrow
variants adds `amount` to `total_loans` and removes `amount` from
`total_liquidity`; every successful `repay` removes the pre-state principal
(`encrypted_borrowed.value`) from `total_loans` and adds `amount` to
`total_liquidity`. -/
theorem C6_conservation :
    (∀ now ba ps tr amount zk_proof ba1 ps1 tr1,
      borrow now ba ps tr amount zk_proof = Except.ok (ba1, ps1, tr1) →
      ps1.total_loans = ps.total_loans + amount ∧
      ps.total_liquidity = ps1.total_liquidity + amount) ∧
    (∀ now borrower ba ps tr pool amount zk_proof ba1 ps1 tr1,
      institutional_borrow now borrower ba ps tr pool amount zk_proof =
        Except.ok (ba1, ps1, tr1) →
      ps1.total_loans = ps.total_loans + amount ∧
      ps.total_liquidity = ps1.total_liquidity + amount) ∧
    (∀ now borrower delegated ba ps tr amount zk_proof ba1 ps1 tr1,
      delegated_borrow now borrower delegated ba ps tr amount zk_proof =
        Except.ok (ba1, ps1, tr1) →
      ps1.total_loans = ps.total_loans + amount ∧
      ps.total_liquidity = ps1.total_liquidity + amount) ∧
    (∀ now ba ps lp amount ba1 ps1 lp1,
      repay now ba ps lp amount = Except.ok (ba1, ps1, lp1) →
      ps.total_loans = ps1.total_loans + ba.encrypted_borrowed.value ∧
      ps1.total_liquidity = ps.total_liquidity + amount) := by
  refine ⟨?_, ?_, ?_, ?_⟩
  · intro now ba ps tr amount zk_proof ba1 ps1 tr1 h
    simp [borrow, zk_require_ok_iff, lift_opt_ok_iff,
      checked_add_u64_some_iff, checked_sub_u64_some_iff,
      checked_div_u64_some_iff, verify_zk_proof, and_assoc] at h
    obtain ⟨-, -, -, -, -, hliq, -, hps, -⟩ := h
    subst hps
    simp
    omega
  · intro now borrower ba ps tr pool amount zk_proof ba1 ps1 tr1 h
    simp [institutional_borrow, zk_require_ok_iff, lift_opt_ok_iff,
      checked_add_u64_some_iff, checked_sub_u64_some_iff,
      checked_div_u64_some_iff, verify_zk_proof, and_assoc] at h
    obtain ⟨-, -, -, -, -, -, hliq, -, hps, -⟩ := h
    subst hps
    simp
    omega
  · intro now borrower delegated ba ps tr amount zk_proof ba1 ps1 tr1 h
    simp [delegated_borrow, zk_require_ok_iff, lift_opt_ok_iff,
      checked_add_u64_some_iff, checked_sub_u64_some_iff,
      checked_div_u64_some_iff, verify_zk_proof, and_assoc] at h
    obtain ⟨-, -, -, -, -, -, -, hliq, -, hps, -⟩ := h
    subst hps
    simp
    omega
  · intro now ba ps lp amount ba1 ps1 lp1 h
    simp [repay, zk_require_ok_iff, lift_opt_ok_iff,
      checked_add_u64_some_iff, checked_sub_u64_some_iff,
      checked_div_u64_some_iff, verify_zk_proof, and_assoc] at h
    obtain ⟨td, htd, hge, -, hloans, -, -, hps, -⟩ := h
    subst hps
    simp
    omega

/-- C6 witness: a concrete successful `borrow` of 50 against 1000 liquidity
(loans 0 → 50, liquidity 1000 → 950) and a concrete successful `repay` of a
100-principal debt (loans 100 → 0, liquidity 900 → 1000). -/
theorem C6_witness :
    ((⟨0, 50, 950, 5, 5, 600⟩ : ProtocolState).total_loans =
        (⟨0, 0, 1000, 5, 0, 600⟩ : ProtocolState).total_loans + 50 ∧
      (⟨0, 0, 1000, 5, 0, 600⟩ : ProtocolState).total_liquidity =
        (⟨0, 50, 950, 5, 5, 600⟩ : ProtocolState).total_liquidity + 50) ∧
    ((⟨0, 100, 900, 5, 10, 600⟩ : ProtocolState).total_loans =
        (⟨0, 0, 1000, 5, 0, 600⟩ : ProtocolState).total_loans +
          (⟨⟨50⟩, ⟨100⟩, 0⟩ : BorrowerAccount).encrypted_borrowed.value ∧
      (⟨0, 0, 1000, 5, 0, 600⟩ : ProtocolState).total_liquidity =
        (⟨0, 100, 900, 5, 10, 600⟩ : ProtocolState).total_liquidity + 100) :=
  ⟨C6_conservation.1 1000 ⟨⟨100⟩, ⟨0⟩, 0⟩ ⟨0, 0, 1000, 5, 0, 600⟩ ⟨0, 0⟩ 50
      [] ⟨⟨100⟩, ⟨50⟩, 1000⟩ ⟨0, 50, 950, 5, 5, 600⟩ ⟨0, 0⟩ rfl,
   C6_conservation.2.2.2 0 ⟨⟨50⟩, ⟨100⟩, 0⟩ ⟨0, 100, 900, 5, 10, 600⟩
      ⟨1, 0, 5, 0, 2⟩ 100 ⟨⟨50⟩, ⟨0⟩, 0⟩ ⟨0, 0, 1000, 5, 0, 600⟩
      ⟨1, 0, 5, 0, 3⟩ rfl⟩

/-- C7: `repay` fails with `RepayExceedsBorrow` exactly when the interest
computation succeeds with some `total_due = principal + interest_due` and
`amount < total_due`; on success the debt and timestamp are reset to zero
and `lender_rewards` grows by `⌊amount/100⌋`; and whenever
`amount ≥ total_due` and the remaining checked arithmetic stays in range,
`repay` does succeed. -/
theorem C7_repay_exceeds_borrow :
    (∀ now ba ps lp amount,
      (repay now ba ps lp amount =
          Except.error ZKError.RepayExceedsBorrow ↔
        ∃ total_due, repay_total_due now ba ps = some total_due ∧
          amount < total_due)) ∧
    (∀ now ba ps lp amount ba1 ps1 lp1,
      repay now ba ps lp amount = Except.ok (ba1, ps1, lp1) →
      ba1.encrypted_borrowed.value = 0 ∧ ba1.borrow_timestamp = 0 ∧
      lp1.lender_rewards = lp.lender_rewards + amount / 100) ∧
    (∀ now ba ps lp amount total_due,
      repay_total_due now ba ps = some total_due → amount ≥ total_due →
      lp.lender_rewards + amount / 100 < U64 →
      ba.encrypted_borrowed.value ≤ ps.total_loans →
      ps.total_liquidity + amount < U64 →
      (repay now ba ps lp amount).isOk = true) := by
  refine ⟨?_, ?_, ?_⟩
  · intro now ba ps lp amount
    constructor
    · intro h
      simp [repay, zk_require_error_iff, lift_opt_error_iff,
        verify_zk_proof] at h
      obtain ⟨td, htd, hlt⟩ := h
      exact ⟨td, htd, by omega⟩
    · rintro ⟨td, htd, hlt⟩
      have hnot : ¬ amount ≥ td := by omega
      simp [repay, lift_opt, zk_require, htd, hnot]
  · intro now ba ps lp amount ba1 ps1 lp1 h
    simp [repay, zk_require_ok_iff, lift_opt_ok_iff,
      checked_add_u64_some_iff, checked_sub_u64_some_iff,
      checked_div_u64_some_iff, verify_zk_proof, and_assoc] at h
    obtain ⟨td, htd, hge, -, -, -, hba, -, hlp⟩ := h
    subst hba
    subst hlp
    simp [reset_encryption]
  · intro now ba ps lp amount total_due htd hge h1 h2 h3
    simp [repay, lift_opt, zk_require, htd, hge, checked_div_u64,
      checked_add_u64, checked_sub_u64, h1, h2, h3, Except.isOk,
      Except.toBool]

/-- C7 witness: with a 100-principal debt at `now = 0` (zero elapsed time,
zero interest) a repayment of 99 fails with `RepayExceedsBorrow`, and the
successful repayment of 100 resets the debt and timestamp to zero and pays
`⌊100/100⌋ = 1` in lender rewards (2 → 3). -/
theorem C7_witness :
    repay 0 ⟨⟨50⟩, ⟨100⟩, 0⟩ ⟨0, 100, 900, 5, 10, 600⟩ ⟨1, 0, 5, 0, 2⟩ 99 =
      Except.error ZKError.RepayExceedsBorrow ∧
    ((⟨⟨50⟩, ⟨0⟩, 0⟩ : BorrowerAccount).encrypted_borrowed.value = 0 ∧
      (⟨⟨50⟩, ⟨0⟩, 0⟩ : BorrowerAccount).borrow_timestamp = 0 ∧
      (⟨1, 0, 5, 0, 3⟩ : LendingPool).lender_rewards =
        (⟨1, 0, 5, 0, 2⟩ : LendingPool).lender_rewards + 100 / 100) :=
  ⟨(C7_repay_exceeds_borrow.1 0 ⟨⟨50⟩, ⟨100⟩, 0⟩ ⟨0, 100, 900, 5, 10, 600⟩
      ⟨1, 0, 5, 0, 2⟩ 99).mpr ⟨100, by decide, by decide⟩,
   C7_repay_exceeds_borrow.2.1 0 ⟨⟨50⟩, ⟨100⟩, 0⟩ ⟨0, 100, 900, 5, 10, 600⟩
      ⟨1, 0, 5, 0, 2⟩ 100 ⟨⟨50⟩, ⟨0⟩, 0⟩ ⟨0, 0, 1000, 5, 0, 600⟩
      ⟨1, 0, 5, 0, 3⟩ rfl⟩

/-- C8, counterexample: a borrower with the *non-zero* (but negative)
timestamp `−1` and elapsed time `0 − (−1) = 1` far below the 600-second lock
is not rejected — the guard only fires for strictly positive timestamps, so
the borrow succeeds. -/
theorem C8_counterexample :
    ((-1 : Int) ≠ 0) ∧ ((0 : Int) - (-1) < 600) ∧
    borrow 0 ⟨⟨10⟩, ⟨0⟩, -1⟩ ⟨0, 0, 100, 5, 0, 600⟩ ⟨0, 0⟩ 5 [] =
      Except.ok (⟨⟨10⟩, ⟨5⟩, 0⟩, ⟨0, 5, 95, 5, 5, 600⟩, ⟨0, 0⟩) := by
  refine ⟨by decide, by decide, ?_⟩
  rfl

/-- C8 (amended): the flash-loan guard applies exactly when
`borrow_timestamp > 0` (strictly positive, not merely non-zero).  For a
positive-timestamp position each borrow variant fails with
`CollateralLockTimeNotMet` when `now − borrow_timestamp` is strictly below
`min_collateral_lock_time`; at exactly the lock time, and for any
`borrow_timestamp ≤ 0` (zero or negative), the lock-time check never
rejects. -/
theorem C8_lock_gate :
    (∀ now ts min_lock, flash_lock_ok now ts min_lock = true ↔
      (ts > 0 → now - ts ≥ min_lock)) ∧
    (∀ now ba ps tr amount zk_proof, ba.borrow_timestamp > 0 →
      now - ba.borrow_timestamp < ps.min_collateral_lock_time →
      borrow now ba ps tr amount zk_proof =
        Except.error ZKError.CollateralLockTimeNotMet) ∧
    (∀ now borrower ba ps tr pool amount zk_proof,
      pool.zk_whitelist.contains borrower = true →
      ba.borrow_timestamp > 0 →
      now - ba.borrow_timestamp < ps.min_collateral_lock_time →
      institutional_borrow now borrower ba ps tr pool amount zk_proof =
        Except.error ZKError.CollateralLockTimeNotMet) ∧
    (∀ now borrower delegated ba ps tr amount zk_proof,
      delegated.delegate = borrower →
      amount ≤ delegated.max_borrow_amount →
      ba.borrow_timestamp > 0 →
      now - ba.borrow_timestamp < ps.min_collateral_lock_time →
      delegated_borrow now borrower delegated ba ps tr amount zk_proof =
        Except.error ZKError.CollateralLockTimeNotMet) ∧
    (∀ now ba ps tr amount zk_proof, ba.borrow_timestamp > 0 →
      now - ba.borrow_timestamp = ps.min_collateral_lock_time →
      borrow now ba ps tr amount zk_proof ≠
        Except.error ZKError.CollateralLockTimeNotMet) ∧
    (∀ now ba ps tr amount zk_proof, ba.borrow_timestamp ≤ 0 →
      borrow now ba ps tr amount zk_proof ≠
        Except.error ZKError.CollateralLockTimeNotMet) := by
  refine ⟨flash_lock_ok_iff, ?_, ?_, ?_, ?_, ?_⟩
  · intro now ba ps tr amount zk_proof hts hlt
    have hnot : ¬ (now - ba.borrow_timestamp ≥
        ps.min_collateral_lock_time) := by omega
    simp [borrow, zk_require, verify_zk_proof, flash_lock_ok, hts, hnot]
  · intro now borrower ba ps tr pool amount zk_proof hwl hts hlt
    have hnot : ¬ (now - ba.borrow_timestamp ≥
        ps.min_collateral_lock_time) := by omega
    have hwl2 : borrower ∈ pool.zk_whitelist := by simpa using hwl
    simp [institutional_borrow, zk_require, verify_zk_proof, flash_lock_ok,
      hwl2, hts, hnot]
  · intro now borrower delegated ba ps tr amount zk_proof hdel hmax hts hlt
    have hnot : ¬ (now - ba.borrow_timestamp ≥
        ps.min_collateral_lock_time) := by omega
    simp [delegated_borrow, zk_require, verify_zk_proof, flash_lock_ok,
      hdel, hmax, hts, hnot]
  · intro now ba ps tr amount zk_proof hts heq h
    have hflash : flash_lock_ok now ba.borrow_timestamp
        ps.min_collateral_lock_time = true :=
      (flash_lock_ok_iff _ _ _).mpr (fun _ => by omega)
    simp [borrow, zk_require_error_iff, lift_opt_error_iff, verify_zk_proof,
      hflash] at h
  · intro now ba ps tr amount zk_proof hts h
    have hflash : flash_lock_ok now ba.borrow_timestamp
        ps.min_collateral_lock_time = true :=
      (flash_lock_ok_iff _ _ _).mpr (fun hpos => by omega)
    simp [borrow, zk_require_error_iff, lift_opt_error_iff, verify_zk_proof,
      hflash] at h

/-- C8 witness: a position borrowed at time 100 cannot borrow again at time
150 (elapsed 50 < 600), and the guard formula accepts elapsed time exactly
600. -/
theorem C8_witness :
    borrow 150 ⟨⟨10⟩, ⟨0⟩, 100⟩ ⟨0, 0, 100, 5, 0, 600⟩ ⟨0, 0⟩ 5 [] =
      Except.error ZKError.CollateralLockTimeNotMet ∧
    flash_lock_ok 700 100 600 = true :=
  ⟨C8_lock_gate.2.1 150 ⟨⟨10⟩, ⟨0⟩, 100⟩ ⟨0, 0, 100, 5, 0, 600⟩ ⟨0, 0⟩ 5 []
      (by decide) (by decide),
   (C8_lock_gate.1 700 100 600).mpr (by decide)⟩

/-- C9: `vote` rejects signers outside the institutional whitelist with
`UnauthorizedVoter`; with a whitelisted signer it rejects any supplied
proposal id different from the record's current one (superseded ids
included) with `InvalidProposal`; otherwise, within `i64` range, it succeeds
and changes exactly the tally: `votes + 1` for a yes vote, `votes − 1` for a
no vote, with `proposal_id`, `proposal_type` and `new_value` untouched. -/
theorem C9_vote_gates (voter : Pubkey) (pool : InstitutionalLendingPool)
    (gov : Governance) (proposal_id : Nat) (v : Bool) :
    (pool.zk_whitelist.contains voter = false →
      vote voter pool gov proposal_id v =
        Except.error ZKError.UnauthorizedVoter) ∧
    (pool.zk_whitelist.contains voter = true →
      gov.proposal_id ≠ proposal_id →
      vote voter pool gov proposal_id v =
        Except.error ZKError.InvalidProposal) ∧
    (pool.zk_whitelist.contains voter = true →
      gov.proposal_id = proposal_id →
      inI64 (if v then gov.votes + 1 else gov.votes - 1) →
      vote voter pool gov proposal_id v =
        Except.ok { gov with
          votes := if v then gov.votes + 1 else gov.votes - 1 }) := by
  refine ⟨?_, ?_, ?_⟩
  · intro hwl
    have hwl2 : voter ∉ pool.zk_whitelist := by simpa using hwl
    simp [vote, zk_require, hwl2]
  · intro hwl hne
    have hwl2 : voter ∈ pool.zk_whitelist := by simpa using hwl
    simp [vote, zk_require, hwl2, hne]
  · intro hwl heq hin
    have hwl2 : voter ∈ pool.zk_whitelist := by simpa using hwl
    cases v
    · simp only [if_false, Bool.false_eq_true] at hin ⊢
      simp [vote, zk_require, lift_opt, checked_sub_i64, hwl2, heq, hin]
    · simp only [if_true] at hin ⊢
      simp [vote, zk_require, lift_opt, checked_add_i64, hwl2, heq, hin]

/-- C9 witness: concrete runs of all three branches — an unauthorized voter,
a superseded proposal id, and a successful yes vote incrementing the tally
from 5 to 6. -/
theorem C9_witness :
    vote 9 ⟨0, 0, 0, [7, 8]⟩ ⟨3, 1, 42, 5⟩ 3 true =
      Except.error ZKError.UnauthorizedVoter ∧
    vote 7 ⟨0, 0, 0, [7, 8]⟩ ⟨3, 1, 42, 5⟩ 2 false =
      Except.error ZKError.InvalidProposal ∧
    vote 7 ⟨0, 0, 0, [7, 8]⟩ ⟨3, 1, 42, 5⟩ 3 true =
      Except.ok { (⟨3, 1, 42, 5⟩ : Governance) with
        votes := if true then (5 : Int) + 1 else (5 : Int) - 1 } :=
  ⟨(C9_vote_gates 9 ⟨0, 0, 0, [7, 8]⟩ ⟨3, 1, 42, 5⟩ 3 true).1 (by decide),
   (C9_vote_gates 7 ⟨0, 0, 0, [7, 8]⟩ ⟨3, 1, 42, 5⟩ 2 false).2.1 (by decide)
      (by decide),
   (C9_vote_gates 7 ⟨0, 0, 0, [7, 8]⟩ ⟨3, 1, 42, 5⟩ 3 true).2.2 (by decide)
      (by decide) (by decide)⟩

/-- C10: a zero-amount `borrow` succeeds for every borrower — even with zero
collateral, since the sufficiency check `0 ≥ 0` passes — provided the
flash-loan lock condition holds (and the `u64` ledger values are in range):
fee and net amount are `0`, the borrower's debt, `total_loans`,
`total_liquidity` and the treasury are all unchanged, yet
`borrow_timestamp` is still set to `now`, arming the flash-loan lock. -/
theorem C10_zero_borrow (now : Int) (ba : BorrowerAccount)
    (ps : ProtocolState) (tr : ProtocolTreasury) (zk_proof : List Nat)
    (hlock : ba.borrow_timestamp > 0 →
      now - ba.borrow_timestamp ≥ ps.min_collateral_lock_time)
    (hloans : ps.total_loans < U64)
    (hfees : tr.total_fees_collected < U64) :
    borrow now ba ps tr 0 zk_proof =
      Except.ok ({ ba with borrow_timestamp := now },
        { ps with utilization_rate :=
            calculate_utilization ps.total_loans ps.total_liquidity },
        tr) := by
  have hflash : flash_lock_ok now ba.borrow_timestamp
      ps.min_collateral_lock_time = true :=
    (flash_lock_ok_iff _ _ _).mpr hlock
  simp [borrow, zk_require, lift_opt, verify_zk_proof, hflash,
    has_sufficient_collateral, update_encrypted_value, checked_add_u64,
    checked_sub_u64, checked_div_u64, hloans, hfees]
  split <;> rfl

/-- C10 witness: a borrower with zero collateral and no history borrows 0 at
time 1000 — the state is unchanged except the armed `borrow_timestamp`. -/
theorem C10_witness :
    borrow 1000 ⟨⟨0⟩, ⟨0⟩, 0⟩ ⟨0, 7, 100, 5, 3, 600⟩ ⟨9, 0⟩ 0 [] =
      Except.ok ({ (⟨⟨0⟩, ⟨0⟩, 0⟩ : BorrowerAccount) with
          borrow_timestamp := 1000 },
        { (⟨0, 7, 100, 5, 3, 600⟩ : ProtocolState) with
            utilization_rate := calculate_utilization 7 100 },
        ⟨9, 0⟩) :=
  C10_zero_borrow 1000 ⟨⟨0⟩, ⟨0⟩, 0⟩ ⟨0, 7, 100, 5, 3, 600⟩ ⟨9, 0⟩ []
    (by decide) (by decide) (by decide)

end ZkLending
